import Mathlib

/-!
Verification of the `lookerdataplex` operational scripts.

This file gives a shallow embedding, in Lean 4, of the parts of the
repository relevant to its specification: the idempotent Dataplex entry
creation routine (`ingest_views_only.py` / `ingest_dashboards_only.py`),
the structural-link creation logic (`create_structural_links.py`), the
Data Lineage API client helpers (`dataplex_lineage_api.py`, including a
full executable MD5 used by the deterministic process-ID generator),
and the regex-based LookML field extraction (a small backtracking
regular-expression engine mirroring Python `re` semantics on the
concrete patterns used by the scripts).

External effects (gcloud subprocesses, HTTP requests, the filesystem)
are modelled by explicit oracle/world records threaded through the
embedded functions, which additionally record the observable effects
(which commands were issued, whether temporary files were created and
removed) needed to state the claims.

The file is organised as: all definitions first, then all theorems.
-/

namespace LookerDataplex

/-! # Definitions -/

/-! ## Python string primitives

Python `str.split(sep)` for a single-character separator, over the
character list of a string.  `"a:b:".split(":") == ["a","b",""]` and
`"abc".split(":") == ["abc"]`; the result is never empty. -/

def pySplit (c : Char) : List Char → List (List Char)
  | [] => [[]]
  | x :: xs =>
    let r := pySplit c xs
    if x = c then [] :: r else (x :: r.headD []) :: r.tail

/-- Python `s.replace(".", "-")` on a character: `.` becomes `-`. -/
def dotToDash (ch : Char) : Char :=
  if ch = '.' then '-' else ch

/-! ## Entry-ID derivation (`create_dataplex_entry_with_aspects`)

Identical in `ingest_views_only.py` (lines 76-80) and
`ingest_dashboards_only.py` (lines 70-74):

```python
if ":" in entry_fqn:
    entry_id = entry_fqn.split(":")[-1].replace(".", "-")
else:
    entry_id = entry_fqn.replace(".", "-")
```
-/

def deriveEntryIdChars (fqn : List Char) : List Char :=
  if ':' ∈ fqn then
    ((pySplit ':' fqn).getLastD []).map dotToDash
  else
    fqn.map dotToDash

def deriveEntryId (fqn : String) : String :=
  String.mk (deriveEntryIdChars fqn.data)

/-- Spec-side formulation (following the words of claim C10): the segment
of the FQN after the last `:` — the whole FQN when there is no `:` —
with every `.` replaced by `-`.  The suffix after the last `:` is read
off from the right: the longest suffix free of `:`. -/
def specEntryIdChars (fqn : List Char) : List Char :=
  ((fqn.reverse.takeWhile (fun ch => ch ≠ ':')).reverse).map dotToDash

def specEntryId (fqn : String) : String :=
  String.mk (specEntryIdChars fqn.data)

/-! ## World model for the ingestion scripts

`ingest_views_only.py` / `ingest_dashboards_only.py` interact with the
outside world through `subprocess.run` on gcloud commands and through a
temporary JSON file.  A subprocess invocation can return output, raise
`subprocess.CalledProcessError` (non-zero exit), or raise some other
exception. -/

inductive SubprocOutcome where
  | ok (stdout : String)
  | procErr (stderr : String)
  | exn
deriving DecidableEq

/-- The external state visible to one run of the entry-creation routine:
which entry IDs currently exist in the Dataplex entry group, and how the
`gcloud dataplex entries create` subprocess will behave if invoked. -/
structure GcloudWorld where
  catalog : List String
  createOutcome : SubprocOutcome
deriving DecidableEq

/-- `run_gcloud_command` (ingest_views_only.py lines 37-50): returns the
subprocess stdout, or `None` after catching `CalledProcessError`; any
other exception propagates to the caller (modelled as `Except.error`). -/
def run_gcloud_command : SubprocOutcome → Except Unit (Option String)
  | .ok out => .ok (some out)
  | .procErr _ => .ok none
  | .exn => .error ()

/-- `entry_exists` (ingest_views_only.py lines 52-71): a `describe` call
that succeeds exactly when the entry is present in the catalog. -/
def entry_exists (w : GcloudWorld) (entry_id : String) : Bool :=
  w.catalog.contains entry_id

/-- Whether a subprocess outcome is a normal exit with output. -/
def SubprocOutcome.isOk : SubprocOutcome → Bool
  | .ok _ => true
  | _ => false

/-- `formatted_aspects` construction (ingest_views_only.py lines 89-95):
each aspect key is prefixed with `PROJECT_ID.LOCATION.`. -/
def formatted_aspects (projectId location : String)
    (aspect_data : List (String × String)) : List (String × String) :=
  aspect_data.map (fun p => (projectId ++ "." ++ location ++ "." ++ p.1, p.2))

/-- Observable effects of one invocation of the entry-creation routine:
the IDs passed to `entries describe` and to `entries create`, how many
`create` subprocesses were launched, and whether the temporary aspect
file was created and later removed. -/
structure EntryCreateTrace where
  describedIds : List String
  createdIds : List String
  createCalls : Nat
  tempCreated : Bool
  tempRemoved : Bool
deriving DecidableEq

structure EntryCreateResult where
  result : Bool
  world : GcloudWorld
  trace : EntryCreateTrace
deriving DecidableEq

set_option linter.unusedVariables false in
/-- `create_dataplex_entry_with_aspects` (ingest_views_only.py lines
73-123, identical in ingest_dashboards_only.py lines 67-117).  Derives
the entry ID from the FQN, returns `True` early when the entry already
exists, otherwise writes the aspect payload to a temporary JSON file and
invokes `gcloud dataplex entries create`; the `try/except/finally`
returns `True` on subprocess output, `False` when the command failed or
raised, and removes the temporary file on every path.  A successful
create adds the new entry ID to the external catalog.  `entry_type` and
`aspect_data` shape only the payloads of the effects (the temp-file
contents via `formatted_aspects` and the create command's flags), not
the control flow, so the embedding carries them without reading them. -/
def create_dataplex_entry_with_aspects (w : GcloudWorld)
    (entry_fqn entry_type : String) (aspect_data : List (String × String)) :
    EntryCreateResult :=
  let entry_id := deriveEntryId entry_fqn
  if entry_exists w entry_id then
    ⟨true, w, ⟨[entry_id], [], 0, false, false⟩⟩
  else
    match run_gcloud_command w.createOutcome with
    | .ok r =>
      if r.isSome then
        ⟨true, ⟨entry_id :: w.catalog, w.createOutcome⟩,
          ⟨[entry_id], [entry_id], 1, true, true⟩⟩
      else
        ⟨false, w, ⟨[entry_id], [entry_id], 1, true, true⟩⟩
    | .error _ => ⟨false, w, ⟨[entry_id], [entry_id], 1, true, true⟩⟩

/-! ## World model for `create_structural_links.py`

`create_entry_link` talks to the world through: `gcloud dataplex entries
describe` (via `run_gcloud_command` with `ignore_errors=True`, so the
check is just whether output came back), `gcloud auth
print-access-token`, and one `requests.post` call on the entryLinks
endpoint, which either returns an HTTP status or raises
`requests.RequestException`. -/

inductive PostOutcome where
  | status (code : Nat) (body : String)
  | exn
deriving DecidableEq

structure LinkWorld where
  describe : String → Option String
  token : Option String
  post : PostOutcome

/-- `verify_entry_exists` (create_structural_links.py lines 84-95):
true exactly when the describe call produced output. -/
def verify_entry_exists (w : LinkWorld) (entry_id : String) : Bool :=
  (w.describe entry_id).isSome

/-- `entry_link_type_mapping` (create_structural_links.py lines 137-144):
dict lookup with a `related` default; used to build the request body. -/
def entry_link_type_mapping (link_type : String) : String :=
  if link_type = "uses" then
    "projects/dataplex-types/locations/global/entryLinkTypes/related"
  else if link_type = "maps_to" then
    "projects/dataplex-types/locations/global/entryLinkTypes/definition"
  else if link_type = "related" then
    "projects/dataplex-types/locations/global/entryLinkTypes/related"
  else if link_type = "definition" then
    "projects/dataplex-types/locations/global/entryLinkTypes/definition"
  else
    "projects/dataplex-types/locations/global/entryLinkTypes/related"

/-- Result of one `create_entry_link` call, together with whether a POST
request was actually issued. -/
structure LinkCallResult where
  result : Bool
  postIssued : Bool
deriving DecidableEq

/-- `create_entry_link` (create_structural_links.py lines 111-186):
verify both endpoints exist (skip with `False` otherwise), obtain a
token (fail with `False` otherwise), then POST; HTTP 200 and 409 return
`True`, any other status or a request exception returns `False`.  The
`link_type` argument only shapes the request body via
`entry_link_type_mapping` and does not affect the result. -/
def create_entry_link (w : LinkWorld) (source_entry_id target_entry_id : String)
    (link_type : String) : LinkCallResult :=
  if !verify_entry_exists w source_entry_id then ⟨false, false⟩
  else if !verify_entry_exists w target_entry_id then ⟨false, false⟩
  else
    match w.token with
    | none => ⟨false, false⟩
    | some _ =>
      let _entryLinkType := entry_link_type_mapping link_type
      match w.post with
      | .status code _ =>
        if code = 200 then ⟨true, true⟩
        else if code = 409 then ⟨true, true⟩
        else ⟨false, true⟩
      | .exn => ⟨false, true⟩

/-- The hardcoded dashboard → explores table
(create_structural_links.py lines 194-204). -/
def dashboard_explore_relationships : List (String × List String) :=
  [("mylooker-retail_banking-credit_card_fraud_overview",
      ["mylooker-retail_banking-card_transactions"]),
   ("mylooker-retail_banking-customer_account",
      ["mylooker-retail_banking-account", "mylooker-retail_banking-card_transactions"]),
   ("mylooker-retail_banking-merchant_deepdive",
      ["mylooker-retail_banking-card_transactions"]),
   ("mylooker-retail_banking-fraud_model_performance",
      ["mylooker-retail_banking-card_transactions"]),
   ("mylooker-retail_banking-location_analysis",
      ["mylooker-retail_banking-account", "mylooker-retail_banking-branches"]),
   ("mylooker-retail_banking-branch_overview",
      ["mylooker-retail_banking-account", "mylooker-retail_banking-branches"]),
   ("mylooker-retail_banking-brick_and_mortar_decision_dashboard",
      ["mylooker-retail_banking-account", "mylooker-retail_banking-branches"]),
   ("mylooker-retail_banking-card_type_lookup",
      ["mylooker-retail_banking-card_payments", "mylooker-retail_banking-card_transactions"]),
   ("mylooker-retail_banking-cc_customer_marketing",
      ["mylooker-retail_banking-card_transactions", "mylooker-retail_banking-card_payments"])]

/-- Outcome of one linker batch: the `links_created` counter and the
list of (source, target) pairs for which `create_entry_link` was
actually invoked. -/
structure LinkBatchResult where
  linksCreated : Nat
  linkCalls : List (String × String)
deriving DecidableEq

/-- The loop body shared by `create_dashboard_to_explore_links`
(create_structural_links.py lines 206-229) and its siblings: iterate a
parent → children relationship table, skip a parent absent from the
parent lookup map, skip a child absent from the child lookup map, and
otherwise call `create_entry_link`, counting `True` results in
`links_created`. -/
def processLinkPairs (w : LinkWorld) (rels : List (String × List String))
    (parentIds childIds : List String) (link_type : String) : LinkBatchResult :=
  rels.foldl
    (fun acc pair =>
      if parentIds.contains pair.1 then
        pair.2.foldl
          (fun acc2 child =>
            if childIds.contains child then
              let r := create_entry_link w pair.1 child link_type
              ⟨acc2.linksCreated + (if r.result then 1 else 0),
               acc2.linkCalls ++ [(pair.1, child)]⟩
            else acc2)
          acc
      else acc)
    ⟨0, []⟩

/-- `create_dashboard_to_explore_links` (create_structural_links.py
lines 188-229): runs the loop on the hardcoded table with `uses` links
and returns `links_created`. -/
def create_dashboard_to_explore_links (w : LinkWorld)
    (dashboards explores : List String) : Nat :=
  (processLinkPairs w dashboard_explore_relationships dashboards explores "uses").linksCreated

/-! ## `DataLineageAPI._make_request` response handling

(dataplex_lineage_api.py lines 74-111.)  The request either yields an
HTTP response (status code and body text) or raises
`requests.exceptions.RequestException`. -/

inductive HttpOutcome where
  | response (status : Nat) (content : String)
  | exn
deriving DecidableEq

/-- The status-code dispatch of `_make_request` (lines 93-107): 200/201
return the parsed body (`{}` when the body is empty), 404 returns
`None`, 400 and 403 print a hint and return `None`, every other status
prints a generic API error and returns `None`. -/
def handle_response (status : Nat) (content : String) : Option String :=
  if status = 200 ∨ status = 201 then
    some (if content = "" then "\x7b\x7d" else content)
  else if status = 404 then none
  else if status = 400 then none
  else if status = 403 then none
  else none

/-- `_make_request` over the outcome model: a raised request exception
is caught and also reported as `None` (lines 109-111). -/
def make_request (o : HttpOutcome) : Option String :=
  match o with
  | .response st content => handle_response st content
  | .exn => none

/-! ## MD5

`generate_deterministic_process_id` (dataplex_lineage_api.py lines
306-320) hashes `f"{display_name}:{transformation_type}"` with
`hashlib.md5` and keeps the first 8 hex characters.  This is a complete
executable MD5 (RFC 1321) over `Nat` with explicit `% 2^32` reductions;
bytes are the UTF-8 encoding of the input string. -/

def md5S : List Nat :=
  [7, 12, 17, 22, 7, 12, 17, 22, 7, 12, 17, 22, 7, 12, 17, 22,
   5, 9, 14, 20, 5, 9, 14, 20, 5, 9, 14, 20, 5, 9, 14, 20,
   4, 11, 16, 23, 4, 11, 16, 23, 4, 11, 16, 23, 4, 11, 16, 23,
   6, 10, 15, 21, 6, 10, 15, 21, 6, 10, 15, 21, 6, 10, 15, 21]

def md5K : List Nat :=
  [3614090360, 3905402710, 606105819, 3250441966, 4118548399, 1200080426,
   2821735955, 4249261313, 1770035416, 2336552879, 4294925233, 2304563134,
   1804603682, 4254626195, 2792965006, 1236535329, 4129170786, 3225465664,
   643717713, 3921069994, 3593408605, 38016083, 3634488961, 3889429448,
   568446438, 3275163606, 4107603335, 1163531501, 2850285829, 4243563512,
   1735328473, 2368359562, 4294588738, 2272392833, 1839030562, 4259657740,
   2763975236, 1272893353, 4139469664, 3200236656, 681279174, 3936430074,
   3572445317, 76029189, 3654602809, 3873151461, 530742520, 3299628645,
   4096336452, 1126891415, 2878612391, 4237533241, 1700485571, 2399980690,
   4293915773, 2240044497, 1873313359, 4264355552, 2734768916, 1309151649,
   4149444226, 3174756917, 718787259, 3951481745]

def rotl32 (x n : Nat) : Nat :=
  ((x <<< n) ||| (x >>> (32 - n))) % 4294967296

def md5FG (i b c d : Nat) : Nat × Nat :=
  if i < 16 then ((b &&& c) ||| ((b ^^^ 4294967295) &&& d), i)
  else if i < 32 then ((d &&& b) ||| ((d ^^^ 4294967295) &&& c), (5 * i + 1) % 16)
  else if i < 48 then (b ^^^ c ^^^ d, (3 * i + 5) % 16)
  else (c ^^^ (b ||| (d ^^^ 4294967295)), (7 * i) % 16)

def md5Round (m : List Nat) (st : Nat × Nat × Nat × Nat) (i : Nat) :
    Nat × Nat × Nat × Nat :=
  let a := st.1
  let b := st.2.1
  let c := st.2.2.1
  let d := st.2.2.2
  let fg := md5FG i b c d
  let f := (fg.1 + a + md5K.getD i 0 + m.getD fg.2 0) % 4294967296
  (d, (b + rotl32 f (md5S.getD i 0)) % 4294967296, b, c)

def md5Words (block : List Nat) : List Nat :=
  (List.range 16).map (fun j =>
    block.getD (4 * j) 0 + 256 * block.getD (4 * j + 1) 0 +
      65536 * block.getD (4 * j + 2) 0 + 16777216 * block.getD (4 * j + 3) 0)

def md5ProcessBlock (st : Nat × Nat × Nat × Nat) (block : List Nat) :
    Nat × Nat × Nat × Nat :=
  let m := md5Words block
  let r := (List.range 64).foldl (md5Round m) st
  ((st.1 + r.1) % 4294967296, (st.2.1 + r.2.1) % 4294967296,
   (st.2.2.1 + r.2.2.1) % 4294967296, (st.2.2.2 + r.2.2.2) % 4294967296)

def md5Blocks : Nat → (Nat × Nat × Nat × Nat) → List Nat → Nat × Nat × Nat × Nat
  | 0, st, _ => st
  | n + 1, st, bytes => md5Blocks n (md5ProcessBlock st (bytes.take 64)) (bytes.drop 64)

def md5Pad (msg : List Nat) : List Nat :=
  let L := msg.length
  let padLen := (119 - (L % 64)) % 64
  let bitLen := (8 * L) % 18446744073709551616
  msg ++ [128] ++ List.replicate padLen 0 ++
    (List.range 8).map (fun i => (bitLen >>> (8 * i)) % 256)

def utf8Bytes (c : Char) : List Nat :=
  let n := c.toNat
  if n < 128 then [n]
  else if n < 2048 then [192 + n / 64, 128 + n % 64]
  else if n < 65536 then [224 + n / 4096, 128 + (n / 64) % 64, 128 + n % 64]
  else [240 + n / 262144, 128 + (n / 4096) % 64, 128 + (n / 64) % 64, 128 + n % 64]

def strBytes (s : String) : List Nat :=
  s.data.foldr (fun c acc => utf8Bytes c ++ acc) []

def wordLEBytes (w : Nat) : List Nat :=
  [w % 256, (w >>> 8) % 256, (w >>> 16) % 256, (w >>> 24) % 256]

def hexDigitChar (n : Nat) : Char :=
  if n < 10 then Char.ofNat (48 + n) else Char.ofNat (87 + n)

def bytesToHexChars : List Nat → List Char
  | [] => []
  | b :: bs => hexDigitChar (b / 16) :: hexDigitChar (b % 16) :: bytesToHexChars bs

def md5Digest (s : String) : List Nat :=
  let bytes := md5Pad (strBytes s)
  let st := md5Blocks (bytes.length / 64)
    (1732584193, 4023233417, 2562383102, 271733878) bytes
  wordLEBytes st.1 ++ wordLEBytes st.2.1 ++ wordLEBytes st.2.2.1 ++ wordLEBytes st.2.2.2

/-- `hashlib.md5(content.encode()).hexdigest()`: the 32 lowercase hex
characters of the digest. -/
def md5hexChars (s : String) : List Char :=
  bytesToHexChars (md5Digest s)

def md5hex (s : String) : String :=
  String.mk (md5hexChars s)

/-! ## Deterministic process IDs (dataplex_lineage_api.py lines 306-320) -/

/-- The `type_prefix` dict lookup with default `"transform"`. -/
def typePfx (transformation_type : String) : String :=
  if transformation_type = "view_transformation" then "bq-view"
  else if transformation_type = "explore_transformation" then "view-explore"
  else if transformation_type = "dashboard_visualization" then "explore-dash"
  else "transform"

/-- `generate_deterministic_process_id`: md5 of
`display_name ++ ":" ++ transformation_type`, first 8 hex characters
(Python `hash_hex[:8]`, here a `List.take 8` on the hex characters),
prefixed by the transformation-type prefix and a dash. -/
def generate_deterministic_process_id
    (display_name transformation_type : String) : String :=
  let content := display_name ++ ":" ++ transformation_type
  let hash8 := (md5hexChars content).take 8
  typePfx transformation_type ++ "-" ++ String.mk hash8

/-! ## Lineage runs (dataplex_lineage_api.py lines 42-50, 147-182, 342-361)

Timestamps: `datetime.now(timezone.utc)` is modelled as a number of
microseconds since the epoch, passed in explicitly; `timedelta(seconds=1)`
adds 1000000 microseconds.  `datetime.isoformat()` is implemented below
(`YYYY-MM-DDTHH:MM:SS[.ffffff]+00:00`, microseconds omitted when 0),
using the standard civil-from-days calendar algorithm. -/

def pad2 (n : Nat) : String :=
  if n < 10 then "0" ++ toString n else toString n

def pad4 (n : Nat) : String :=
  if n < 10 then "000" ++ toString n
  else if n < 100 then "00" ++ toString n
  else if n < 1000 then "0" ++ toString n
  else toString n

def pad6 (n : Nat) : String :=
  if n < 10 then "00000" ++ toString n
  else if n < 100 then "0000" ++ toString n
  else if n < 1000 then "000" ++ toString n
  else if n < 10000 then "00" ++ toString n
  else if n < 100000 then "0" ++ toString n
  else toString n

/-- Gregorian date from days since 1970-01-01 (valid for dates from the
epoch on): year, month, day. -/
def civilFromDays (days : Nat) : Nat × Nat × Nat :=
  let z := days + 719468
  let era := z / 146097
  let doe := z % 146097
  let yoe := (doe - doe / 1460 + doe / 36524 - doe / 146096) / 365
  let y := yoe + era * 400
  let doy := doe - (365 * yoe + yoe / 4 - yoe / 100)
  let mp := (5 * doy + 2) / 153
  let d := doy - (153 * mp + 2) / 5 + 1
  let m := if mp < 10 then mp + 3 else mp - 9
  (if m ≤ 2 then y + 1 else y, m, d)

/-- `datetime.isoformat()` of a UTC timestamp given in microseconds
since the epoch. -/
def isoformat (us : Nat) : String :=
  let micro := us % 1000000
  let sec := us / 1000000
  let days := sec / 86400
  let sod := sec % 86400
  let ymd := civilFromDays days
  pad4 ymd.1 ++ "-" ++ pad2 ymd.2.1 ++ "-" ++ pad2 ymd.2.2 ++ "T" ++
    pad2 (sod / 3600) ++ ":" ++ pad2 (sod % 3600 / 60) ++ ":" ++ pad2 (sod % 60) ++
    (if micro = 0 then "" else "." ++ pad6 micro) ++ "+00:00"

/-- The `LineageRun` dataclass (dataplex_lineage_api.py lines 42-50). -/
structure LineageRun where
  name : String
  display_name : String
  state : String
  start_time : String
  end_time : String
  attributes : List (String × String)
deriving DecidableEq

/-- `create_transformation_run` (dataplex_lineage_api.py lines 342-361):
state is always `"COMPLETED"`, `end_time = start_time + timedelta(seconds=1)`,
both rendered with `isoformat()`; `nowUs` stands for
`datetime.now(timezone.utc)`. -/
def create_transformation_run (process_name run_id display_name : String)
    (nowUs : Nat) : LineageRun :=
  let run_name := process_name ++ "/runs/" ++ run_id
  ⟨run_name, display_name, "COMPLETED", isoformat nowUs, isoformat (nowUs + 1000000),
   [("execution_time", isoformat nowUs), ("status", "success")]⟩

/-- The `run_data` request body assembled by `DataLineageAPI.create_run`
(dataplex_lineage_api.py lines 160-169): `displayName`, `state`,
`startTime` and `attributes` always; `endTime` added exactly when
`run.state == "COMPLETED" and run.end_time` (non-empty string). -/
structure RunRequestBody where
  displayName : String
  state : String
  startTime : String
  attributes : List (String × String)
  endTime : Option String
deriving DecidableEq

def build_run_data (run : LineageRun) : RunRequestBody :=
  ⟨run.display_name, run.state, run.start_time, run.attributes,
   if run.state = "COMPLETED" ∧ run.end_time ≠ "" then some run.end_time else none⟩

/-! ## A backtracking regular-expression engine

`parse_field_definition` and `parse_view_file` (ingest_views_only.py
lines 132-187) use `re.search` / `re.findall`.  The engine below
reproduces CPython `re` semantics for the fragment those patterns use
(literals, character classes, greedy `*` and `+`, capturing groups):
`reMatches` enumerates every match of a pattern at the start of the
input in exactly the engine's backtracking priority order (greedy
quantifiers try longer iterations first), so the head of the list is
the match `re` returns; `reSearch` scans start positions left to right
as `re.search` does, and `reFindAll` repeats from each match end as
`re.findall` does.  The fuel argument bounds `*`-unfoldings; every
starred body in the patterns below consumes at least one character, so
`length + 1` fuel is exhaustive. -/

inductive RE where
  | eps
  | lit (c : Char)
  | cls (p : Char → Bool)
  | seq (r1 r2 : RE)
  | star (r : RE)
  | group (idx : Nat) (r : RE)

/-- Captures: group index to captured characters. -/
def Caps : Type := List (Nat × List Char)

/-- Greedy iteration of a star body: `matchBody` enumerates the body's
matches on a given input; the star tries one more iteration first (the
greedy choice) and the empty match last, with the fuel bounding the
number of iterations. -/
def reMatchesStar
    (matchBody : List Char → List (List Char × List Char × List (Nat × List Char))) :
    Nat → List Char → List (List Char × List Char × List (Nat × List Char))
  | 0, s => [([], s, [])]
  | fuel + 1, s =>
    ((matchBody s).flatMap (fun m1 =>
      (reMatchesStar matchBody fuel m1.2.1).map (fun m2 =>
        (m1.1 ++ m2.1, m2.2.1, m1.2.2 ++ m2.2.2)))) ++ [([], s, [])]

/-- All matches of `r` at the start of `s`, each as (consumed, rest,
captures), in backtracking priority order.  A star's iteration count is
bounded by the length of the input it starts on plus one, which is
exhaustive for star bodies that consume at least one character per
iteration (as all the patterns below do). -/
def reMatches : RE → List Char → List (List Char × List Char × List (Nat × List Char))
  | .eps, s => [([], s, [])]
  | .lit c, s =>
    match s with
    | [] => []
    | x :: xs => if x = c then [([c], xs, [])] else []
  | .cls p, s =>
    match s with
    | [] => []
    | x :: xs => if p x then [([x], xs, [])] else []
  | .seq r1 r2, s =>
    (reMatches r1 s).flatMap (fun m1 =>
      (reMatches r2 m1.2.1).map (fun m2 =>
        (m1.1 ++ m2.1, m2.2.1, m1.2.2 ++ m2.2.2)))
  | .star r, s => reMatchesStar (reMatches r) (s.length + 1) s
  | .group i r, s =>
    (reMatches r s).map (fun m => (m.1, m.2.1, m.2.2 ++ [(i, m.1)]))

/-- Greedy `+` is `r` followed by greedy `r*`. -/
def rePlus (r : RE) : RE := .seq r (.star r)

def reStr : List Char → RE
  | [] => .eps
  | c :: cs => .seq (.lit c) (reStr cs)

def reFirst (r : RE) (s : List Char) : Option (List Char × List Char × List (Nat × List Char)) :=
  (reMatches r s).head?

/-- `re.search`: first start position (left to right) with a match. -/
def reSearch (r : RE) : List Char → Option (List Char × List Char × List (Nat × List Char))
  | [] => reFirst r []
  | s@(_ :: xs) =>
    match reFirst r s with
    | some m => some m
    | none => reSearch r xs

/-- `re.findall`: capture tuples of successive non-overlapping matches. -/
def reFindAll (r : RE) : Nat → List Char → List (List (Nat × List Char))
  | 0, _ => []
  | fuel + 1, s =>
    match reSearch r s with
    | none => []
    | some m => m.2.2 :: reFindAll r fuel m.2.1

/-- Python `\s` (ASCII). -/
def isSpaceChar (c : Char) : Bool :=
  c = ' ' || c = '\t' || c = '\n' || c = '\r' || c = '\x0b' || c = '\x0c'

/-- Python `\w` (ASCII). -/
def isWordChar (c : Char) : Bool :=
  c.isAlphanum || c = '_'

def lbrace : Char := Char.ofNat 123

def rbrace : Char := Char.ofNat 125

def backquote : Char := Char.ofNat 96

/-- Python `str.strip()` (whitespace from both ends). -/
def pyStrip (l : List Char) : List Char :=
  ((l.dropWhile isSpaceChar).reverse.dropWhile isSpaceChar).reverse

/-- The field-block pattern of `parse_view_file` (lines 168 and 175):
`keyword` is `dimension:` or `measure:`, followed by
`\s*(\w+)\s*\{([^}]+(?:\{[^}]*\}[^}]*)*)\}`. -/
def blockPattern (keyword : List Char) : RE :=
  .seq (reStr keyword)
    (.seq (.star (.cls isSpaceChar))
      (.seq (.group 1 (rePlus (.cls isWordChar)))
        (.seq (.star (.cls isSpaceChar))
          (.seq (.lit lbrace)
            (.seq (.group 2
              (.seq (rePlus (.cls (fun c => c ≠ rbrace)))
                (.star (.seq (.lit lbrace)
                  (.seq (.star (.cls (fun c => c ≠ rbrace)))
                    (.seq (.lit rbrace) (.star (.cls (fun c => c ≠ rbrace)))))))))
              (.lit rbrace))))))

/-- `r'sql:\s*([^;]+);'` (line 134; `re.DOTALL` is irrelevant: the
pattern has no `.`). -/
def sqlPattern : RE :=
  .seq (reStr "sql:".data)
    (.seq (.star (.cls isSpaceChar))
      (.seq (.group 1 (rePlus (.cls (fun c => c ≠ ';')))) (.lit ';')))

/-- `r'type:\s*(\w+)'` (line 137). -/
def typePattern : RE :=
  .seq (reStr "type:".data)
    (.seq (.star (.cls isSpaceChar)) (.group 1 (rePlus (.cls isWordChar))))

/-- `r'\$\{TABLE\}\.(\w+)'` (line 142). -/
def tableColPattern : RE :=
  .seq (reStr ('$' :: lbrace :: ("TABLE".data ++ [rbrace, '.'])))
    (.group 1 (rePlus (.cls isWordChar)))

/-- `r'view:\s*(\w+)'` (line 158). -/
def viewNamePattern : RE :=
  .seq (reStr "view:".data)
    (.seq (.star (.cls isSpaceChar)) (.group 1 (rePlus (.cls isWordChar))))

/-- `sql_table_name:\s*` followed by a backquoted `([^`]+)` (line 161). -/
def sqlTableNamePattern : RE :=
  .seq (reStr "sql_table_name:".data)
    (.seq (.star (.cls isSpaceChar))
      (.seq (.lit backquote)
        (.seq (.group 1 (rePlus (.cls (fun c => c ≠ backquote)))) (.lit backquote))))

/-- `description:\s*"([^"]+)"` (line 164). -/
def descriptionPattern : RE :=
  .seq (reStr "description:".data)
    (.seq (.star (.cls isSpaceChar))
      (.seq (.lit '"')
        (.seq (.group 1 (rePlus (.cls (fun c => c ≠ '"')))) (.lit '"'))))

def group1 (caps : List (Nat × List Char)) : List Char := (caps.lookup 1).getD []

def group2 (caps : List (Nat × List Char)) : List Char := (caps.lookup 2).getD []

/-- The `FieldLineage` dataclass (ingest_views_only.py lines 19-26). -/
structure FieldLineage where
  field_name : String
  field_type : String
  source_table : Option String
  source_column : Option String
  sql_definition : Option String
deriving DecidableEq

/-- The `ViewMetadata` dataclass (ingest_views_only.py lines 28-35). -/
structure ViewMetadata where
  name : String
  sql_table_name : Option String
  dimensions : List FieldLineage
  measures : List FieldLineage
  description : Option String
deriving DecidableEq

/-- `parse_field_definition` (ingest_views_only.py lines 132-151):
search the block for a `sql:` clause (stripped), a `type:`, and — only
when the sql definition is a non-empty string — a `${TABLE}.col`
reference in it. -/
def parse_field_definition (field_block : List Char)
    (field_name field_type : String) : FieldLineage :=
  let sql_definition : Option (List Char) :=
    (reSearch sqlPattern field_block).map (fun m => pyStrip (group1 m.2.2))
  let detected_type : String :=
    match reSearch typePattern field_block with
    | some m => String.mk (group1 m.2.2)
    | none => field_type
  let source_column : Option String :=
    match sql_definition with
    | some d =>
      if d = [] then none
      else (reSearch tableColPattern d).map (fun m => String.mk (group1 m.2.2))
    | none => none
  ⟨field_name, detected_type, none, source_column, sql_definition.map String.mk⟩

/-- `parse_view_file` (ingest_views_only.py lines 153-187) on the file
content; `stem` is `Path(file_path).stem`, the fallback view name. -/
def parse_view_file (content : List Char) (stem : String) : ViewMetadata :=
  let view_name : String :=
    match reSearch viewNamePattern content with
    | some m => String.mk (group1 m.2.2)
    | none => stem
  let sql_table_name : Option String :=
    (reSearch sqlTableNamePattern content).map (fun m => String.mk (group1 m.2.2))
  let description : Option String :=
    (reSearch descriptionPattern content).map (fun m => String.mk (group1 m.2.2))
  let fuel := content.length + 1
  let mkField (fieldType : String) (caps : List (Nat × List Char)) : FieldLineage :=
    let fl := parse_field_definition (group2 caps) (String.mk (group1 caps)) fieldType
    ⟨fl.field_name, fl.field_type, sql_table_name, fl.source_column, fl.sql_definition⟩
  let dimensions :=
    (reFindAll (blockPattern "dimension:".data) fuel content).map (mkField "dimension")
  let measures :=
    (reFindAll (blockPattern "measure:".data) fuel content).map (mkField "measure")
  ⟨view_name, sql_table_name, dimensions, measures, description⟩

/-- The example view block of claim C4:
`dimension: amount { type: number sql: ${TABLE}.amt ;}`. -/
def exampleBlockContent : List Char :=
  "dimension: amount \x7b type: number sql: $\x7bTABLE\x7d.amt ;\x7d".data

/-! # Theorems -/

/-! ## List and split lemmas -/

theorem pySplit_ne_nil (c : Char) (l : List Char) : pySplit c l ≠ [] := by
  cases l with
  | nil => simp [pySplit]
  | cons x xs =>
    simp only [pySplit]
    split <;> simp

theorem takeWhile_eq_self_of_not_mem {c : Char} {a : List Char}
    (h : c ∉ a) :
    a.takeWhile (fun ch => ch ≠ c) = a := by
  induction a with
  | nil => rfl
  | cons x xs ih =>
    have hx : x ≠ c := fun hxc => h (hxc ▸ List.mem_cons_self x xs)
    rw [List.takeWhile_cons, if_pos (by simp [hx]),
      ih (fun hm => h (List.mem_cons_of_mem x hm))]

theorem takeWhile_append_singleton_false {p : Char → Bool} {a : List Char}
    {e : Char} (hp : p e = false) :
    (a ++ [e]).takeWhile p = a.takeWhile p := by
  rw [List.takeWhile_append]
  split
  · rename_i hlen
    have ha : a.takeWhile p = a := (List.takeWhile_prefix p).eq_of_length hlen
    simp [List.takeWhile_cons, hp, ha]
  · rfl

theorem takeWhile_append_of_mem_false {p : Char → Bool} {a : List Char}
    (b : List Char) (e : Char) (hb : e ∈ a) (hp : p e = false) :
    (a ++ b).takeWhile p = a.takeWhile p := by
  rw [List.takeWhile_append]
  split
  · rename_i hlen
    have ha : a.takeWhile p = a := (List.takeWhile_prefix p).eq_of_length hlen
    have : p e = true := List.mem_takeWhile_imp (ha ▸ hb)
    rw [hp] at this
    cases this
  · rfl

theorem takeWhile_append_of_forall {p : Char → Bool} {a : List Char} (b : List Char)
    (h : ∀ e ∈ a, p e = true) :
    (a ++ b).takeWhile p = a ++ b.takeWhile p := by
  rw [List.takeWhile_append]
  have ha : a.takeWhile p = a := List.takeWhile_eq_self_iff.mpr h
  rw [if_pos (by rw [ha])]

theorem pySplit_singleton_iff (c : Char) (l : List Char) :
    (pySplit c l).tail = [] ↔ c ∉ l := by
  induction l with
  | nil => simp [pySplit]
  | cons x xs ih =>
    simp only [pySplit, List.mem_cons]
    by_cases hx : x = c
    · simp only [if_pos hx, List.tail_cons]
      constructor
      · intro hh
        exact absurd hh (pySplit_ne_nil c xs)
      · intro hn
        exact absurd (Or.inl hx.symm) hn
    · simp only [if_neg hx, List.tail_cons]
      constructor
      · intro hh
        have hc : c ∉ xs := by
          rw [← ih]
          rcases hps : pySplit c xs with _ | ⟨h1, t1⟩
          · exact absurd hps (pySplit_ne_nil c xs)
          · rw [hps] at hh
            simp only [List.tail_cons] at hh ⊢
            exact hh
        intro hor
        rcases hor with h4 | h4
        · exact hx h4.symm
        · exact hc h4
      · intro hn
        have hc : c ∉ xs := fun hm => hn (Or.inr hm)
        rcases hps : pySplit c xs with _ | ⟨h1, t1⟩
        · exact absurd hps (pySplit_ne_nil c xs)
        · have := ih.mpr hc
          rw [hps] at this
          simp only [List.tail_cons] at this ⊢
          exact this

theorem pySplit_getLastD (c : Char) (l : List Char) :
    (pySplit c l).getLastD [] =
      (l.reverse.takeWhile (fun ch => ch ≠ c)).reverse := by
  induction l with
  | nil => simp [pySplit]
  | cons x xs ih =>
    simp only [pySplit, List.reverse_cons]
    by_cases hx : x = c
    · subst hx
      rw [if_pos rfl, takeWhile_append_singleton_false (by simp), List.getLastD_cons]
      exact ih
    · rw [if_neg hx]
      by_cases hc : c ∈ xs
      · -- the last chunk lies inside `xs`
        rw [takeWhile_append_of_mem_false [x] c (by simpa using hc) (by simp)]
        rcases hps : pySplit c xs with _ | ⟨h1, t1⟩
        · exact absurd hps (pySplit_ne_nil c xs)
        · rcases ht : t1 with _ | ⟨t2, ts⟩
          · have : c ∉ xs := by
              rw [← pySplit_singleton_iff c xs, hps, ht]
              rfl
            exact absurd hc this
          · rw [hps, ht] at ih
            simp only [List.headD_cons, List.tail_cons, List.getLastD_cons] at ih ⊢
            exact ih
      · -- no `c` in `xs`: single chunk, the whole list is the suffix
        have hxs : xs.reverse.takeWhile (fun ch => ch ≠ c) = xs.reverse := by
          apply takeWhile_eq_self_of_not_mem
          simpa using hc
        have htail : (pySplit c xs).tail = [] := (pySplit_singleton_iff c xs).mpr hc
        rcases hps : pySplit c xs with _ | ⟨h1, t1⟩
        · exact absurd hps (pySplit_ne_nil c xs)
        · rw [hps] at htail
          simp only [List.tail_cons] at htail
          subst htail
          rw [hps] at ih
          simp only [List.getLastD_cons, List.getLastD_nil] at ih
          have hh1 : h1 = xs := by rw [ih, hxs, List.reverse_reverse]
          subst hh1
          rw [takeWhile_append_of_forall]
          · have hxone : List.takeWhile (fun ch => decide (ch ≠ c)) [x] = [x] := by
              simp [hx]
            rw [hxone, List.reverse_append, List.reverse_reverse]
            simp
          · intro e he
            simp only [List.mem_reverse] at he
            simp only [ne_eq, decide_eq_true_eq]
            intro hec
            exact hc (hec ▸ he)

theorem deriveEntryIdChars_eq_spec (fqn : List Char) :
    deriveEntryIdChars fqn = specEntryIdChars fqn := by
  unfold deriveEntryIdChars specEntryIdChars
  by_cases h : ':' ∈ fqn
  · rw [if_pos h, pySplit_getLastD]
  · rw [if_neg h]
    have : fqn.reverse.takeWhile (fun ch => ch ≠ ':') = fqn.reverse := by
      apply takeWhile_eq_self_of_not_mem
      simpa using h
    rw [this, List.reverse_reverse]

theorem str_data_append (a b : String) : (a ++ b).data = a.data ++ b.data := rfl

/-! ## Claim theorems: the ingestion scripts -/

/-- C10: for every world and fully-qualified name, the entry-creation
routine issues its existence check against the derived local identifier,
issues the create command (when the create step is reached) against that
same derived identifier rather than the raw FQN, and the identifier
equals the segment of the FQN after the last `:` (the whole FQN when
there is no `:`) with every `.` replaced by `-`. -/
theorem entry_creation_uses_derived_id (w : GcloudWorld)
    (fqn entry_type : String) (aspect_data : List (String × String)) :
    (create_dataplex_entry_with_aspects w fqn entry_type aspect_data).trace.describedIds =
      [deriveEntryId fqn] ∧
    (create_dataplex_entry_with_aspects w fqn entry_type aspect_data).trace.createdIds =
      (if entry_exists w (deriveEntryId fqn) then [] else [deriveEntryId fqn]) ∧
    deriveEntryId fqn = specEntryId fqn := by
  refine ⟨?_, ?_, ?_⟩
  · by_cases h : entry_exists w (deriveEntryId fqn) <;>
      cases hoc : w.createOutcome <;>
      simp [create_dataplex_entry_with_aspects, run_gcloud_command, h, hoc]
  · by_cases h : entry_exists w (deriveEntryId fqn) <;>
      cases hoc : w.createOutcome <;>
      simp [create_dataplex_entry_with_aspects, run_gcloud_command, h, hoc]
  · unfold deriveEntryId specEntryId
    rw [deriveEntryIdChars_eq_spec]

/-- C10 witness at a concrete FQN: `custom:looker.view:mylooker.retail_banking.card`
derives `mylooker-retail_banking-card`. -/
theorem entry_creation_uses_derived_id_witness :
    (create_dataplex_entry_with_aspects ⟨[], .ok ""⟩
        "custom:looker.view:mylooker.retail_banking.card"
        "looker-view" [("looker-core", "aspect")]).trace.describedIds =
      ["mylooker-retail_banking-card"] ∧
    deriveEntryId "custom:looker.view:mylooker.retail_banking.card" =
      specEntryId "custom:looker.view:mylooker.retail_banking.card" := by
  have h := entry_creation_uses_derived_id ⟨[], .ok ""⟩
    "custom:looker.view:mylooker.retail_banking.card"
    "looker-view" [("looker-core", "aspect")]
  exact ⟨by rw [h.1]; decide, h.2.2⟩

/-- C1: an entry whose derived ID already exists is skipped with result
`True` and no create call; consequently, calling the routine twice on
the same FQN — starting from a world where the entry is absent and the
create subprocess succeeds — performs exactly one create call in total,
and the second call reports the skip/already-exists success. -/
theorem entry_creation_idempotent (w : GcloudWorld)
    (fqn entry_type : String) (aspect_data : List (String × String)) (out : String)
    (habsent : entry_exists w (deriveEntryId fqn) = false)
    (hok : w.createOutcome = .ok out) :
    (∀ w2 : GcloudWorld, entry_exists w2 (deriveEntryId fqn) = true →
      (create_dataplex_entry_with_aspects w2 fqn entry_type aspect_data).result = true ∧
      (create_dataplex_entry_with_aspects w2 fqn entry_type aspect_data).trace.createCalls = 0) ∧
    (create_dataplex_entry_with_aspects w fqn entry_type aspect_data).result = true ∧
    (create_dataplex_entry_with_aspects w fqn entry_type aspect_data).trace.createCalls = 1 ∧
    (create_dataplex_entry_with_aspects
        (create_dataplex_entry_with_aspects w fqn entry_type aspect_data).world
        fqn entry_type aspect_data).result = true ∧
    (create_dataplex_entry_with_aspects
        (create_dataplex_entry_with_aspects w fqn entry_type aspect_data).world
        fqn entry_type aspect_data).trace.createCalls = 0 := by
  refine ⟨?_, ?_, ?_, ?_, ?_⟩
  · intro w2 h2
    constructor <;> simp [create_dataplex_entry_with_aspects, h2]
  · simp [create_dataplex_entry_with_aspects, run_gcloud_command, habsent, hok]
  · simp [create_dataplex_entry_with_aspects, run_gcloud_command, habsent, hok]
  · have hw : (create_dataplex_entry_with_aspects w fqn entry_type aspect_data).world =
        ⟨deriveEntryId fqn :: w.catalog, w.createOutcome⟩ := by
      simp [create_dataplex_entry_with_aspects, run_gcloud_command, habsent, hok]
    rw [hw]
    have hex : entry_exists ⟨deriveEntryId fqn :: w.catalog, w.createOutcome⟩
        (deriveEntryId fqn) = true := by
      simp [entry_exists]
    simp [create_dataplex_entry_with_aspects, hex]
  · have hw : (create_dataplex_entry_with_aspects w fqn entry_type aspect_data).world =
        ⟨deriveEntryId fqn :: w.catalog, w.createOutcome⟩ := by
      simp [create_dataplex_entry_with_aspects, run_gcloud_command, habsent, hok]
    rw [hw]
    have hex : entry_exists ⟨deriveEntryId fqn :: w.catalog, w.createOutcome⟩
        (deriveEntryId fqn) = true := by
      simp [entry_exists]
    simp [create_dataplex_entry_with_aspects, hex]

/-- C1 witness: in an empty catalog with a succeeding create subprocess,
creating `custom:looker.view:mylooker.retail_banking.card` twice makes
one create call, and the second call is a skip returning `True`. -/
theorem entry_creation_idempotent_witness :
    (entry_exists ⟨[], .ok ""⟩
        (deriveEntryId "custom:looker.view:mylooker.retail_banking.card") = false ∧
      GcloudWorld.createOutcome ⟨[], .ok ""⟩ = .ok "") ∧
    ((create_dataplex_entry_with_aspects ⟨[], .ok ""⟩
        "custom:looker.view:mylooker.retail_banking.card"
        "looker-view" [("looker-core", "aspect")]).result = true ∧
      (create_dataplex_entry_with_aspects ⟨[], .ok ""⟩
        "custom:looker.view:mylooker.retail_banking.card"
        "looker-view" [("looker-core", "aspect")]).trace.createCalls = 1 ∧
      (create_dataplex_entry_with_aspects
          (create_dataplex_entry_with_aspects ⟨[], .ok ""⟩
            "custom:looker.view:mylooker.retail_banking.card"
            "looker-view" [("looker-core", "aspect")]).world
          "custom:looker.view:mylooker.retail_banking.card"
          "looker-view" [("looker-core", "aspect")]).result = true ∧
      (create_dataplex_entry_with_aspects
          (create_dataplex_entry_with_aspects ⟨[], .ok ""⟩
            "custom:looker.view:mylooker.retail_banking.card"
            "looker-view" [("looker-core", "aspect")]).world
          "custom:looker.view:mylooker.retail_banking.card"
          "looker-view" [("looker-core", "aspect")]).trace.createCalls = 0) := by
  have h := entry_creation_idempotent ⟨[], .ok ""⟩
    "custom:looker.view:mylooker.retail_banking.card"
    "looker-view" [("looker-core", "aspect")] "" (by decide) rfl
  exact ⟨⟨by decide, rfl⟩, h.2.1, h.2.2.1, h.2.2.2.1, h.2.2.2.2⟩

/-- C6: for every world and input the entry-creation routine returns a
boolean — `true` exactly when the entry already existed (skip) or the
create subprocess exited normally with output, `false` on any failure,
including an exception raised inside the create step, which is caught
rather than propagated. -/
theorem entry_creation_returns_bool (w : GcloudWorld)
    (fqn entry_type : String) (aspect_data : List (String × String)) :
    (create_dataplex_entry_with_aspects w fqn entry_type aspect_data).result =
      (entry_exists w (deriveEntryId fqn) || w.createOutcome.isOk) := by
  by_cases h : entry_exists w (deriveEntryId fqn) <;>
    cases hoc : w.createOutcome <;>
    simp [create_dataplex_entry_with_aspects, run_gcloud_command,
      SubprocOutcome.isOk, h, hoc]

/-- C9: whenever the entry-creation routine reaches the create step (the
entry did not already exist), the temporary aspect-payload JSON file is
created and then removed before returning, whether the create subprocess
succeeds, fails with `CalledProcessError`, or raises. -/
theorem temp_file_always_removed (w : GcloudWorld)
    (fqn entry_type : String) (aspect_data : List (String × String))
    (h : entry_exists w (deriveEntryId fqn) = false) :
    (create_dataplex_entry_with_aspects w fqn entry_type aspect_data).trace.tempCreated = true ∧
    (create_dataplex_entry_with_aspects w fqn entry_type aspect_data).trace.tempRemoved = true := by
  cases hoc : w.createOutcome <;>
    constructor <;>
    simp [create_dataplex_entry_with_aspects, run_gcloud_command, h, hoc]

/-- C9 witness: with an empty catalog and a create subprocess that
raises, the temporary file is still created and removed. -/
theorem temp_file_always_removed_witness :
    entry_exists ⟨[], .exn⟩ (deriveEntryId "custom:looker.view:mylooker.retail_banking.card") = false ∧
    ((create_dataplex_entry_with_aspects ⟨[], .exn⟩
        "custom:looker.view:mylooker.retail_banking.card"
        "looker-view" [("looker-core", "aspect")]).trace.tempCreated = true ∧
      (create_dataplex_entry_with_aspects ⟨[], .exn⟩
        "custom:looker.view:mylooker.retail_banking.card"
        "looker-view" [("looker-core", "aspect")]).trace.tempRemoved = true) := by
  exact ⟨by decide, temp_file_always_removed ⟨[], .exn⟩
    "custom:looker.view:mylooker.retail_banking.card"
    "looker-view" [("looker-core", "aspect")] (by decide)⟩

/-! ## Claim theorems: structural links -/

/-- C2 counterexample: with a world where no entry exists (every
describe fails), `create_entry_link` issues no POST but returns `False`,
not the success the claim states. -/
theorem link_missing_endpoint_counterexample :
    verify_entry_exists ⟨fun _ => none, some "tok", .status 200 "ok"⟩ "src" = false ∧
    (create_entry_link ⟨fun _ => none, some "tok", .status 200 "ok"⟩
        "src" "tgt" "uses").result = false := by
  decide

/-- C2 amended: when either endpoint of a link is absent from the
catalog, `create_entry_link` issues no POST request and returns `False`
(the skip is reported as a non-success, merely logged). -/
theorem link_noop_when_endpoint_missing (w : LinkWorld) (s t lt : String)
    (h : verify_entry_exists w s = false ∨ verify_entry_exists w t = false) :
    create_entry_link w s t lt = ⟨false, false⟩ := by
  rcases h with h | h
  · simp [create_entry_link, h]
  · by_cases hs : verify_entry_exists w s
    · simp [create_entry_link, hs, h]
    · simp [create_entry_link, hs]

/-- C2 witness: a concrete world with a missing source entry — no POST,
result `False`. -/
theorem link_noop_when_endpoint_missing_witness :
    (verify_entry_exists ⟨fun _ => none, some "tok", .status 200 "ok"⟩ "v1" = false ∨
      verify_entry_exists ⟨fun _ => none, some "tok", .status 200 "ok"⟩ "v2" = false) ∧
    create_entry_link ⟨fun _ => none, some "tok", .status 200 "ok"⟩ "v1" "v2" "uses" =
      ⟨false, false⟩ := by
  exact ⟨Or.inl (by decide),
    link_noop_when_endpoint_missing ⟨fun _ => none, some "tok", .status 200 "ok"⟩
      "v1" "v2" "uses" (Or.inl (by decide))⟩

/-- C5 counterexample: in `DataLineageAPI._make_request`, an HTTP 409
response is returned as `None`, exactly like a generic failure such as
500 — not as a success — refuting the claim that every 409 in these
scripts is reported as success. -/
theorem make_request_409_counterexample :
    make_request (.response 409 "already exists") = none ∧
    make_request (.response 500 "server error") = none := by
  decide

/-- C5 amended: an HTTP 409 on the entry-link POST is treated as
idempotent success (`create_entry_link` returns `True`), but in
`DataLineageAPI._make_request` a 409 response falls into the generic
branch and is returned as `None` (failure), like any other non-2xx,
non-404/400/403 status. -/
theorem link_409_success_api_409_failure :
    (∀ (w : LinkWorld) (s t lt body : String),
      verify_entry_exists w s = true →
      verify_entry_exists w t = true →
      w.token.isSome = true →
      w.post = .status 409 body →
      create_entry_link w s t lt = ⟨true, true⟩) ∧
    (∀ content : String, make_request (.response 409 content) = none) := by
  constructor
  · intro w s t lt body hv1 hv2 htok hpost
    rcases hwt : w.token with _ | tok
    · rw [hwt] at htok
      cases htok
    · simp [create_entry_link, hv1, hv2, hwt, hpost]
  · intro content
    rfl

/-- C5 witness: a concrete world where both endpoints exist, a token is
available and the POST returns 409 — the link call reports success. -/
theorem link_409_success_api_409_failure_witness :
    (verify_entry_exists ⟨fun _ => some "\x7b\x7d", some "tok", .status 409 "dup"⟩ "a" = true ∧
      verify_entry_exists ⟨fun _ => some "\x7b\x7d", some "tok", .status 409 "dup"⟩ "b" = true ∧
      Option.isSome (LinkWorld.token ⟨fun _ => some "\x7b\x7d", some "tok", .status 409 "dup"⟩) = true) ∧
    create_entry_link ⟨fun _ => some "\x7b\x7d", some "tok", .status 409 "dup"⟩ "a" "b" "uses" =
      ⟨true, true⟩ := by
  exact ⟨⟨by decide, by decide, by decide⟩,
    (link_409_success_api_409_failure).1 ⟨fun _ => some "\x7b\x7d", some "tok", .status 409 "dup"⟩
      "a" "b" "uses" "dup" (by decide) (by decide) (by decide) rfl⟩

theorem foldl_const {α β : Type} (f : α → β → α) (h : ∀ a b, f a b = a) :
    ∀ (l : List β) (a : α), l.foldl f a = a
  | [], _ => rfl
  | b :: l, a => by rw [List.foldl_cons, h, foldl_const f h l a]

theorem processLinkPairs_no_children (w : LinkWorld)
    (rels : List (String × List String)) (pIds : List String) (lt : String) :
    processLinkPairs w rels pIds [] lt = ⟨0, []⟩ := by
  unfold processLinkPairs
  apply foldl_const
  intro a pair
  by_cases hp : pIds.contains pair.1
  · simp only [hp, if_true]
    apply foldl_const
    intro a2 child
    rfl
  · simp only [hp]
    rw [if_neg]
    simp [hp]

/-- C7: a relationship table `{"d1": ["e1"]}` whose explore `e1` is not
among the known explores produces zero `create_entry_link` calls and
`links_created = 0`, for every world and dashboard list; likewise the
full hardcoded dashboard→explore linker reports 0 links when the known
explores set is empty. -/
theorem dashboard_links_zero_when_explore_unknown :
    (∀ (w : LinkWorld) (dashboards explores : List String),
      explores.contains "e1" = false →
      processLinkPairs w [("d1", ["e1"])] dashboards explores "uses" = ⟨0, []⟩) ∧
    (∀ (w : LinkWorld) (dashboards : List String),
      create_dashboard_to_explore_links w dashboards [] = 0) := by
  constructor
  · intro w dashboards explores h
    have h2 : "e1" ∉ explores := by simpa using h
    by_cases hd : dashboards.contains "d1" <;>
      simp [processLinkPairs, hd, h] <;>
      exact fun _ => h2
  · intro w dashboards
    unfold create_dashboard_to_explore_links
    rw [processLinkPairs_no_children]

/-- C7 witness: known dashboards `["d1"]`, known explores `["e2"]` — the
pair `("d1", ["e1"])` yields no link call and zero links created. -/
theorem dashboard_links_zero_when_explore_unknown_witness :
    (["e2"] : List String).contains "e1" = false ∧
    processLinkPairs ⟨fun _ => none, none, .exn⟩ [("d1", ["e1"])] ["d1"] ["e2"] "uses" =
      ⟨0, []⟩ := by
  exact ⟨by decide,
    (dashboard_links_zero_when_explore_unknown).1 ⟨fun _ => none, none, .exn⟩
      ["d1"] ["e2"] (by decide)⟩

/-! ## Claim theorems: lineage runs -/

theorem str_append_ne_empty_right (a b : String) (hb : b ≠ "") : a ++ b ≠ "" := by
  intro h
  have hd : a.data ++ b.data = [] := by
    have h2 := congrArg String.data h
    rw [str_data_append] at h2
    exact h2
  rcases List.append_eq_nil.mp hd with ⟨-, hb2⟩
  apply hb
  cases b
  simp only at hb2
  rw [hb2]

theorem isoformat_ne_empty (us : Nat) : isoformat us ≠ "" := by
  unfold isoformat
  apply str_append_ne_empty_right
  decide

/-- C8: every run built by `create_transformation_run` has state
`"COMPLETED"` (no PENDING/RUNNING state is ever produced), start time
the isoformat rendering of the given instant and end time the rendering
of that instant plus exactly one second (1000000 microseconds); and the
`run_data` request body of `create_run` contains `endTime` exactly when
the run's state is `"COMPLETED"` and its `end_time` is non-empty — in
particular it does so for every constructed run. -/
theorem run_state_completed_end_one_second
    (process_name run_id display_name : String) (nowUs : Nat) :
    (create_transformation_run process_name run_id display_name nowUs).state = "COMPLETED" ∧
    (create_transformation_run process_name run_id display_name nowUs).start_time =
      isoformat nowUs ∧
    (create_transformation_run process_name run_id display_name nowUs).end_time =
      isoformat (nowUs + 1000000) ∧
    (∀ run : LineageRun,
      (build_run_data run).endTime ≠ none ↔
        (run.state = "COMPLETED" ∧ run.end_time ≠ "")) ∧
    (build_run_data (create_transformation_run process_name run_id display_name nowUs)).endTime =
      some (isoformat (nowUs + 1000000)) := by
  refine ⟨rfl, rfl, rfl, ?_, ?_⟩
  · intro run
    unfold build_run_data
    by_cases h : run.state = "COMPLETED" ∧ run.end_time ≠ "" <;> simp [h]
  · simp [create_transformation_run, build_run_data, isoformat_ne_empty]

/-! ## Claim theorems: deterministic process IDs -/

theorem bytesToHexChars_length (l : List Nat) :
    (bytesToHexChars l).length = 2 * l.length := by
  induction l with
  | nil => rfl
  | cons b bs ih =>
    simp only [bytesToHexChars, List.length_cons, ih]
    omega

theorem md5Digest_length (s : String) : (md5Digest s).length = 16 := by
  unfold md5Digest
  simp [wordLEBytes]

theorem md5hexChars_take8_length (s : String) :
    ((md5hexChars s).take 8).length = 8 := by
  rw [List.length_take]
  unfold md5hexChars
  rw [bytesToHexChars_length, md5Digest_length]
  decide

theorem prefixed_hash_ne_of_length {p1 p2 : String} (l1 l2 : List Char)
    (hl1 : l1.length = 8) (hl2 : l2.length = 8)
    (hp : p1.data.length ≠ p2.data.length) :
    p1 ++ "-" ++ String.mk l1 ≠ p2 ++ "-" ++ String.mk l2 := by
  intro h
  have hd := congrArg String.data h
  rw [str_data_append, str_data_append, str_data_append, str_data_append] at hd
  have hm1 : (String.mk l1).data = l1 := rfl
  have hm2 : (String.mk l2).data = l2 := rfl
  rw [hm1, hm2] at hd
  have hlen := congrArg List.length hd
  simp only [List.length_append] at hlen
  have hDash : ("-" : String).data.length = 1 := rfl
  rw [hDash, hl1, hl2] at hlen
  exact hp (by omega)

theorem prefixed_hash_ne_head (l1 l2 : List Char) :
    ("view-explore" : String) ++ "-" ++ String.mk l1 ≠
      ("explore-dash" : String) ++ "-" ++ String.mk l2 := by
  intro h
  have hd := congrArg (fun s => s.data.headD ' ') h
  have h1 : (("view-explore" : String) ++ "-" ++ String.mk l1).data.headD ' ' = 'v' := rfl
  have h2 : (("explore-dash" : String) ++ "-" ++ String.mk l2).data.headD ' ' = 'e' := rfl
  simp only [h1, h2] at hd
  exact absurd hd (by decide)

set_option maxRecDepth 400000 in
/-- C3 counterexample: distinct transformation types `t22467` and
`t42515` (neither among the three recognised types, so both get the
`transform` prefix) collide with display name `p`: the md5 digests of
`p:t22467` and `p:t42515` share their first 8 hex characters
(`559c2081`), so the generator returns the same process ID
`transform-559c2081` for differing transformation types. -/
theorem process_id_collision_counterexample :
    generate_deterministic_process_id "p" "t22467" =
      generate_deterministic_process_id "p" "t42515" ∧
    ("t22467" : String) ≠ "t42515" := by
  constructor
  · decide
  · decide

/-- C3 amended: the generator is deterministic — identical
`(display_name, transformation_type)` inputs always give identical IDs —
and for the same display name two *recognised* transformation types
(those with distinct dedicated prefixes) always yield different IDs; for
arbitrary unrecognised types, distinctness can fail on a truncated-hash
collision. -/
theorem process_id_deterministic_and_distinct_known_types :
    (∀ d t : String,
      generate_deterministic_process_id d t = generate_deterministic_process_id d t) ∧
    (∀ (d t1 t2 : String),
      t1 ∈ ["view_transformation", "explore_transformation", "dashboard_visualization"] →
      t2 ∈ ["view_transformation", "explore_transformation", "dashboard_visualization"] →
      t1 ≠ t2 →
      generate_deterministic_process_id d t1 ≠ generate_deterministic_process_id d t2) := by
  constructor
  · intro d t
    rfl
  · intro d t1 t2 h1 h2 hne
    have hgen : ∀ t : String, generate_deterministic_process_id d t =
        typePfx t ++ "-" ++ String.mk ((md5hexChars (d ++ ":" ++ t)).take 8) :=
      fun _ => rfl
    have hvt : typePfx "view_transformation" = "bq-view" := rfl
    have het : typePfx "explore_transformation" = "view-explore" := rfl
    have hdv : typePfx "dashboard_visualization" = "explore-dash" := rfl
    simp only [List.mem_cons, List.not_mem_nil, or_false] at h1 h2
    rcases h1 with h1 | h1 | h1 <;> rcases h2 with h2 | h2 | h2 <;>
      subst h1 <;> subst h2
    · exact absurd rfl hne
    · rw [hgen, hgen, hvt, het]
      exact prefixed_hash_ne_of_length _ _
        (md5hexChars_take8_length _) (md5hexChars_take8_length _) (by decide)
    · rw [hgen, hgen, hvt, hdv]
      exact prefixed_hash_ne_of_length _ _
        (md5hexChars_take8_length _) (md5hexChars_take8_length _) (by decide)
    · rw [hgen, hgen, het, hvt]
      exact prefixed_hash_ne_of_length _ _
        (md5hexChars_take8_length _) (md5hexChars_take8_length _) (by decide)
    · exact absurd rfl hne
    · rw [hgen, hgen, het, hdv]
      exact prefixed_hash_ne_head _ _
    · rw [hgen, hgen, hdv, hvt]
      exact prefixed_hash_ne_of_length _ _
        (md5hexChars_take8_length _) (md5hexChars_take8_length _) (by decide)
    · rw [hgen, hgen, hdv, het]
      intro h
      exact prefixed_hash_ne_head _ _ h.symm
    · exact absurd rfl hne

/-- C3 witness: the recognised types `view_transformation` and
`explore_transformation` give different IDs for the display name
`BigQuery to Looker View: card`. -/
theorem process_id_distinct_witness :
    (("view_transformation" : String) ∈
        ["view_transformation", "explore_transformation", "dashboard_visualization"] ∧
      ("explore_transformation" : String) ∈
        ["view_transformation", "explore_transformation", "dashboard_visualization"] ∧
      ("view_transformation" : String) ≠ "explore_transformation") ∧
    generate_deterministic_process_id "BigQuery to Looker View: card" "view_transformation" ≠
      generate_deterministic_process_id "BigQuery to Looker View: card" "explore_transformation" := by
  exact ⟨⟨by decide, by decide, by decide⟩,
    (process_id_deterministic_and_distinct_known_types).2 "BigQuery to Looker View: card"
      "view_transformation" "explore_transformation" (by decide) (by decide) (by decide)⟩

/-! ## Claim theorems: LookML field extraction -/

set_option maxRecDepth 400000 in
/-- C4 (the code evaluated at the failing input): on the example view
block `dimension: amount { type: number sql: ${TABLE}.amt ;}` the
extractor yields one field record with name `amount` and type `number`
but `source_column = None` and `sql_definition = None` — not
`source_column = "amt"` as the claim requires — because the
dimension-block regex `\{([^}]+(?:\{[^}]*\}[^}]*)*)\}` captures `[^}]+`
greedily up to the first `}` and then closes, truncating the block to
` type: number sql: ${TABLE` before `parse_field_definition` ever runs.
The second conjunct shows the field parser itself extracts `amt` from
the untruncated block, locating the slip in the block regex. -/
theorem extractor_drops_source_column :
    parse_view_file exampleBlockContent "amount_view" =
      ⟨"amount_view", none, [⟨"amount", "number", none, none, none⟩], [], none⟩ ∧
    parse_field_definition " type: number sql: $\x7bTABLE\x7d.amt ;".data
        "amount" "dimension" =
      ⟨"amount", "number", none, some "amt", some "$\x7bTABLE\x7d.amt"⟩ := by
  constructor
  · decide
  · decide

end LookerDataplex
